import Mathlib

/-
  Verification of the medical_tracker ingestion pipeline and
  notification decision engine, shallowly embedded from the Python
  source (app/services/notification.py, app/scheduler.py,
  app/services/data_writer.py, app/api/hospitals.py,
  app/scrapers/cmuh.py, app/scrapers/hmmh.py).
-/

namespace MedTracker

/-- Test whether the pattern is an initial segment of the character
    list. -/
def beginsWith : List Char → List Char → Bool
  | [], _ => true
  | _ :: _, [] => false
  | p :: ps, c :: cs => (p == c) && beginsWith ps cs

/-- Test whether the pattern occurs contiguously in the character
    list. -/
def occursIn (pat : List Char) : List Char → Bool
  | [] => pat.isEmpty
  | c :: cs => beginsWith pat (c :: cs) || occursIn pat cs

/-- Substring test, modelling the Python membership test pat in s on
    strings. -/
def hasSub (s pat : String) : Bool := occursIn pat.toList s.toList

/-- One detailed queue entry of a live clinic display, as stored in
    clinic_queue_details: a ticket number with its status label
    (base.py ClinicProgress.clinic_queue_details items). -/
structure QueueItem where
  number : Int
  status : String
  deriving DecidableEq, Repr

/-- Subscription threshold flags of a tracking_subscriptions row as read
    by notification.py: per-threshold enable flags and per-threshold
    already-notified flags. -/
structure SubFlags where
  notify20 : Bool
  notify10 : Bool
  notify5 : Bool
  notified20 : Bool
  notified10 : Bool
  notified5 : Bool
  deriving DecidableEq, Repr

/-- Target resolution of notification.py lines 86-91:
    target_number = sub.get(appointment_number);
    if None: target_number = total_quota or 0.
    The Python expression (total_quota or 0) maps a missing or zero
    quota to 0 and keeps a nonzero quota. -/
def resolveTarget (apptNumber totalQuota : Option Int) : Int :=
  match apptNumber with
  | some t => t
  | none =>
    match totalQuota with
    | some q => if q != 0 then q else 0
    | none => 0

/-- The remaining-ahead computation of notification.py lines 93-113:
    tier (a) detailed queue entries, tier (b) waiting list,
    tier (c) max 0 (target - current), with the past-target overrides
    exactly as in the source (tier (a) forces zero when
    current >= target, tier (b) when current > target). -/
def remainingAhead (details : List QueueItem) (waiting : List Int)
    (current target : Int) : Int :=
  if !details.isEmpty then
    if current ≥ target then 0
    else
      ((details.filter (fun it =>
        decide (current < it.number) && decide (it.number < target) &&
        (it.status != "完成"))).length : Int)
  else if !waiting.isEmpty then
    if current > target then 0
    else ((waiting.filter (fun x => decide (x < target))).length : Int)
  else
    max 0 (target - current)

/-- Remaining-ahead as the specification sentence words it: whenever the
    current-call number already exceeds the target the result is 0;
    otherwise detailed entries are counted first, then the waiting list,
    then the arithmetic fallback. -/
def remainingSpec (details : List QueueItem) (waiting : List Int)
    (current target : Int) : Int :=
  if current > target then 0
  else if !details.isEmpty then
    ((details.filter (fun it =>
      decide (current < it.number) && decide (it.number < target) &&
      (it.status != "完成"))).length : Int)
  else if !waiting.isEmpty then
    ((waiting.filter (fun x => decide (x < target))).length : Int)
  else
    max 0 (target - current)

/-- The fixed threshold evaluation order of notification.py lines 154-158:
    each entry carries the threshold value, its enable flag and its
    already-notified flag. -/
def subThresholds (s : SubFlags) : List (Int × Bool × Bool) :=
  [(20, s.notify20, s.notified20),
   (10, s.notify10, s.notified10),
   (5, s.notify5, s.notified5)]

/-- The threshold loop of notification.py lines 160-198. Returns the
    threshold whose alert dispatch was queued (the loop breaks after
    the first one) together with the list of thresholds that were marked
    notified without an alert because current exceeds target. -/
def runThresholds (current target remaining : Int) :
    List (Int × Bool × Bool) → Option Int × List Int
  | [] => (none, [])
  | (t, en, ntf) :: rest =>
    if !en then runThresholds current target remaining rest
    else if ntf then runThresholds current target remaining rest
    else if current > target then
      let r := runThresholds current target remaining rest
      (r.1, t :: r.2)
    else if remaining > t then runThresholds current target remaining rest
    else (some t, [])

/-- Threshold evaluation for one subscription in one notification cycle
    (notification.py process_subscription, lines 151-198). -/
def processSubscription (s : SubFlags) (current target remaining : Int) :
    Option Int × List Int :=
  runThresholds current target remaining (subThresholds s)

lemma runThresholds_fired_mem (c t r : Int) (l : List (Int × Bool × Bool)) (v : Int)
    (h : (runThresholds c t r l).1 = some v) : (v, true, false) ∈ l := by
  induction l with
  | nil => simp [runThresholds] at h
  | cons hd tl ih =>
    obtain ⟨tv, en, ntf⟩ := hd
    simp only [runThresholds] at h
    by_cases hen : en
    · by_cases hntf : ntf
      · simp [hen, hntf] at h
        exact List.mem_cons_of_mem _ (ih h)
      · by_cases hct : c > t
        · simp [hen, hntf, hct] at h
          exact List.mem_cons_of_mem _ (ih h)
        · by_cases hrt : r > tv
          · simp [hen, hntf, hct, hrt] at h
            exact List.mem_cons_of_mem _ (ih h)
          · simp [hen, hntf, hct, hrt] at h
            subst h
            simp [hen, hntf]
    · simp [hen] at h
      exact List.mem_cons_of_mem _ (ih h)

lemma runThresholds_find (c t r : Int) (hct : c ≤ t) :
    ∀ l : List (Int × Bool × Bool),
    (runThresholds c t r l).1 =
      (l.find? (fun e => e.2.1 && !e.2.2 && decide (r ≤ e.1))).map (fun e => e.1) := by
  intro l
  induction l with
  | nil => simp [runThresholds]
  | cons hd tl ih =>
    obtain ⟨tv, en, ntf⟩ := hd
    simp only [runThresholds]
    by_cases hen : en
    · by_cases hntf : ntf
      · simp [hen, hntf, ih, List.find?]
      · have hct2 : ¬ c > t := not_lt.mpr hct
        by_cases hrt : r > tv
        · have : ¬ r ≤ tv := not_le.mpr hrt
          simp [hen, hntf, hct2, hrt, ih, List.find?, this]
        · have : r ≤ tv := not_lt.mp hrt
          simp [hen, hntf, hct2, hrt, List.find?, this]
    · simp [hen, ih, List.find?]

lemma remainingAhead_pos_imp_le (details : List QueueItem) (waiting : List Int)
    (current target : Int) (h : 0 < remainingAhead details waiting current target) :
    current ≤ target := by
  unfold remainingAhead at h
  by_cases hd : details.isEmpty
  · by_cases hw : waiting.isEmpty
    · simp [hd, hw] at h
      omega
    · simp [hd, hw] at h
      split at h
      · omega
      · omega
  · simp [hd] at h
    split at h
    · omega
    · omega

/-- C2. Notify-once: in the threshold evaluation of a notification cycle,
    a threshold whose already-notified flag is set never has an alert
    dispatched for it again; the engine skips it regardless of the
    remaining-ahead value. -/
theorem notifyOnce_skip (s : SubFlags) (current target remaining : Int) :
    (s.notified20 = true →
      (processSubscription s current target remaining).1 ≠ some 20) ∧
    (s.notified10 = true →
      (processSubscription s current target remaining).1 ≠ some 10) ∧
    (s.notified5 = true →
      (processSubscription s current target remaining).1 ≠ some 5) := by
  refine ⟨?_, ?_, ?_⟩ <;> intro h hfired
  · have hm := runThresholds_fired_mem current target remaining (subThresholds s) 20 hfired
    simp [subThresholds, h] at hm
  · have hm := runThresholds_fired_mem current target remaining (subThresholds s) 10 hfired
    simp [subThresholds, h] at hm
  · have hm := runThresholds_fired_mem current target remaining (subThresholds s) 5 hfired
    simp [subThresholds, h] at hm

/-- Witness for notifyOnce_skip at a concrete subscription state. -/
theorem notifyOnce_skip_witness :
    (processSubscription ⟨true, true, true, true, false, false⟩ 3 10 4).1 ≠ some 20 :=
  (notifyOnce_skip ⟨true, true, true, true, false, false⟩ 3 10 4).1 rfl

/-- C3 counterexample: with an explicit target of 5, a current-call
    number of 10, no queue details and no waiting list, the code-computed
    remaining-ahead is 0, so threshold 20 is enabled, unnotified and has
    remaining-ahead at most 20 - yet no alert is dispatched at all,
    because the loop marks thresholds notified without alerting when the
    current-call number exceeds the target. -/
theorem thresholdFirstMatch_counterexample :
    remainingAhead [] [] 10 (resolveTarget (some 5) none) = 0 ∧
    remainingAhead [] [] 10 (resolveTarget (some 5) none) ≤ 20 ∧
    (⟨true, true, true, false, false, false⟩ : SubFlags).notify20 = true ∧
    (⟨true, true, true, false, false, false⟩ : SubFlags).notified20 = false ∧
    (processSubscription ⟨true, true, true, false, false, false⟩ 10
      (resolveTarget (some 5) none)
      (remainingAhead [] [] 10 (resolveTarget (some 5) none))).1 = none := by
  refine ⟨by decide, by decide, rfl, rfl, by decide⟩

/-- C3 amended: provided the current-call number does not exceed the
    target, thresholds are checked in the fixed order 20, 10, 5, a
    threshold is skipped when disabled, already notified, or
    remaining-ahead still above it, and the first threshold that is
    enabled, not yet notified and has remaining-ahead at most the
    threshold has exactly one alert dispatched, after which evaluation
    stops; when the current-call number exceeds the target no alert is
    dispatched.  With remaining-ahead equal to 4 (as computed by the
    code) and all three thresholds enabled and unfired, exactly one
    alert fires and it is for threshold 20. -/
theorem thresholdFirstMatch_amended (s : SubFlags) (current target remaining : Int) :
    (current ≤ target →
      (processSubscription s current target remaining).1 =
        ((subThresholds s).find? (fun e => e.2.1 && !e.2.2 && decide (remaining ≤ e.1))).map
          (fun e => e.1)) ∧
    (∀ (details : List QueueItem) (waiting : List Int),
      remainingAhead details waiting current target = 4 →
      s.notify20 = true → s.notify10 = true → s.notify5 = true →
      s.notified20 = false → s.notified10 = false → s.notified5 = false →
      (processSubscription s current target
        (remainingAhead details waiting current target)).1 = some 20) := by
  constructor
  · intro hle
    exact runThresholds_find current target remaining hle (subThresholds s)
  · intro details waiting h4 h20 h10 h5 hn20 hn10 hn5
    have hle : current ≤ target := by
      refine remainingAhead_pos_imp_le details waiting current target ?_
      omega
    show (runThresholds current target
      (remainingAhead details waiting current target) (subThresholds s)).1 = some 20
    rw [runThresholds_find current target
      (remainingAhead details waiting current target) hle (subThresholds s), h4]
    simp [subThresholds, h20, hn20]

/-- Witness for thresholdFirstMatch_amended at a concrete state. -/
theorem thresholdFirstMatch_amended_witness :
    (processSubscription ⟨true, true, true, false, false, false⟩ 2 6
      (remainingAhead [] [] 2 6)).1 = some 20 :=
  (thresholdFirstMatch_amended ⟨true, true, true, false, false, false⟩ 2 6
    (remainingAhead [] [] 2 6)).2 [] [] (by decide) rfl rfl rfl rfl rfl rfl

/-- C4. The remaining-ahead computation agrees with the specification
    wording: when the current-call number exceeds the target the result
    is 0, otherwise detailed queue entries (ticket strictly between
    current and target, status not the completed label) take precedence
    over the waiting-list count (entries strictly below target), which
    takes precedence over max 0 (target - current); and the resolved
    target is the explicit subscription value when set, else the
    snapshot total quota, else 0. -/
theorem remainingAhead_threeTier (details : List QueueItem) (waiting : List Int)
    (current target : Int) (a q : Option Int) :
    remainingAhead details waiting current target =
      remainingSpec details waiting current target ∧
    resolveTarget a q = a.getD (q.getD 0) ∧
    (current > target → remainingAhead details waiting current target = 0) := by
  have hfil : current ≥ target →
      (details.filter (fun it =>
        decide (current < it.number) && decide (it.number < target) &&
        (it.status != "完成"))) = [] := by
    intro hge
    refine List.filter_eq_nil_iff.mpr ?_
    intro it _
    simp only [Bool.and_eq_true, decide_eq_true_eq, bne_iff_ne, ne_eq, not_and]
    intro h1 h2
    omega
  have hmain : remainingAhead details waiting current target =
      remainingSpec details waiting current target := by
    unfold remainingAhead remainingSpec
    split_ifs <;> try rfl
    all_goals try omega
    all_goals rw [hfil (by omega)]
    all_goals rfl
  refine ⟨hmain, ?_, ?_⟩
  · unfold resolveTarget
    cases a with
    | some t => rfl
    | none =>
      cases q with
      | some v =>
        by_cases hv : v = 0
        · simp [hv]
        · simp [hv]
      | none => rfl
  · intro hgt
    rw [hmain]
    unfold remainingSpec
    simp [hgt]

/-- Witness for remainingAhead_threeTier: past-target forces zero. -/
theorem remainingAhead_threeTier_witness :
    (7 : Int) > 3 ∧ remainingAhead [] [42] 7 3 = 0 :=
  ⟨by decide, (remainingAhead_threeTier [] [42] 7 3 none none).2.2 (by decide)⟩

/-- Doctor slot record produced by a schedule fetch (scrapers/base.py
    DoctorSlot).  Session dates are modelled as day indices; clock times
    elsewhere are minutes. -/
structure DoctorSlot where
  doctor_no : String
  doctor_name : String
  department_code : String
  session_date : Int
  session_type : String
  total_quota : Option Int
  registered : Option Int
  clinic_room : Option String
  current_number : Option Int := none
  is_full : Bool := false
  status : Option String := none
  deriving DecidableEq, Repr

/-- Live clinic progress record (scrapers/base.py ClinicProgress). -/
structure ClinicProgress where
  clinic_room : String
  session_type : String
  current_number : Int
  total_quota : Option Int := none
  registered_count : Option Int := none
  status : Option String := none
  waiting_list : List Int := []
  clinic_queue_details : List QueueItem := []
  deriving DecidableEq, Repr

/-- Values carried by an upsert payload entry.  A key that is present
    with JVal.null models a Python dict entry whose value is None; a key
    that is absent from the payload list models a field omitted from
    the dict. -/
inductive JVal where
  | null : JVal
  | int : Int → JVal
  | str : String → JVal
  | bool : Bool → JVal
  | intList : List Int → JVal
  | itemList : List QueueItem → JVal
  deriving DecidableEq, Repr

/-- Conversion of an optional integer into a payload value, as a Python
    dict entry holding either the integer or None. -/
def optIntJ : Option Int → JVal
  | some n => JVal.int n
  | none => JVal.null

/-- Conversion of an optional string into a payload value. -/
def optStrJ : Option String → JVal
  | some s => JVal.str s
  | none => JVal.null

/-- The off-peak full-scan snapshot payload built inline in
    scheduler.py scrape_hospital_master_data lines 181-193.  Note that
    the dict literal there always contains the key current_number with
    value None and always contains total_quota even when the slot has
    none. -/
def offPeakRow (doctor_id department_id scraped_at : String)
    (slot : DoctorSlot) : List (String × JVal) :=
  [("doctor_id", JVal.str doctor_id),
   ("department_id", JVal.str department_id),
   ("session_date", JVal.int slot.session_date),
   ("session_type", JVal.str slot.session_type),
   ("clinic_room", JVal.str (slot.clinic_room.getD "")),
   ("total_quota", optIntJ slot.total_quota),
   ("current_registered", optIntJ slot.registered),
   ("current_number", JVal.null),
   ("is_full", JVal.bool slot.is_full),
   ("status", optStrJ slot.status),
   ("scraped_at", JVal.str scraped_at)]

/-- Key lookup in an upsert payload (first entry wins, as in a dict). -/
def lookupKey (row : List (String × JVal)) (k : String) : Option JVal :=
  (row.find? (fun e => e.1 == k)).map (fun e => e.2)

/-- Column value after upserting the payload over a stored row on the
    conflict key: a key present in the payload (even with a null value)
    overwrites the stored column, an absent key leaves it unchanged. -/
def upsertLookup (stored payload : List (String × JVal)) (k : String) : Option JVal :=
  match lookupKey payload k with
  | some v => some v
  | none => lookupKey stored k

/-- Session start times of the live-fetch time gate in
    scheduler.py build_snapshot_row lines 404-409, in minutes of day:
    morning 08:00, afternoon 13:30, evening 18:00. -/
def sessionStartGate (t : String) : Option Int :=
  if t == "上午" then some 480
  else if t == "下午" then some 810
  else if t == "晚上" then some 1080
  else none

/-- The live-fetch decision of scheduler.py lines 399-419: only for
    slots dated today that need progress, and only between the session
    start time and eight hours after it.  now is absolute minutes,
    today a day index. -/
def shouldFetchRealtime (slot : DoctorSlot) (today now : Int)
    (needs_progress : Bool) : Bool :=
  if slot.session_date == today && needs_progress then
    match sessionStartGate slot.session_type with
    | some st =>
      decide (slot.session_date * 1440 + st ≤ now) &&
      decide (now < slot.session_date * 1440 + st + 480)
    | none => false
  else false

/-- Python truthiness of the clinic room field in the guard
    (scheduler.py line 422). -/
def roomNonempty : Option String → Bool
  | some s => !(s == "")
  | none => false

/-- A live clinic-progress fetch is attempted exactly when the time
    gate passes and the slot has a nonempty clinic room
    (scheduler.py line 422). -/
def fetchAttempted (slot : DoctorSlot) (today now : Int) (needs_progress : Bool) : Bool :=
  shouldFetchRealtime slot today now needs_progress && roomNonempty slot.clinic_room

/-- The snapshot payload built by scheduler.py build_snapshot_row
    lines 384-469: progress values merged over the slot values when a
    live fetch was attempted and returned a record, and the four
    write-only-if-present fields appended to the payload only when
    present.  The progress argument is the record the scraper would
    return for the fetch. -/
def buildSnapshotRow (slot : DoctorSlot) (doctor_id department_id : String)
    (needs_progress : Bool) (today now : Int)
    (progress : Option ClinicProgress) (scraped_at : String) :
    List (String × JVal) :=
  let p : Option ClinicProgress :=
    if fetchAttempted slot today now needs_progress then progress else none
  let current : Option Int :=
    match p with
    | some pr => some pr.current_number
    | none => slot.current_number
  let registered : Option Int :=
    match p with
    | some pr =>
      match pr.registered_count with
      | some n => if n != 0 then some n else slot.registered
      | none => slot.registered
    | none => slot.registered
  let quota : Option Int :=
    match p with
    | some pr =>
      match pr.total_quota with
      | some n => if n != 0 then some n else slot.total_quota
      | none => slot.total_quota
    | none => slot.total_quota
  let statusv : Option String :=
    match p with
    | some pr =>
      match pr.status with
      | some s => if s != "" then some s else slot.status
      | none => slot.status
    | none => slot.status
  let waiting : List Int :=
    match p with
    | some pr => pr.waiting_list
    | none => []
  let details : List QueueItem :=
    match p with
    | some pr => pr.clinic_queue_details
    | none => []
  [("doctor_id", JVal.str doctor_id),
   ("department_id", JVal.str department_id),
   ("session_date", JVal.int slot.session_date),
   ("session_type", JVal.str slot.session_type),
   ("clinic_room", JVal.str (slot.clinic_room.getD "")),
   ("current_registered", optIntJ registered),
   ("is_full", JVal.bool slot.is_full),
   ("status", optStrJ statusv),
   ("scraped_at", JVal.str scraped_at)]
  ++ (match current with
      | some n => [("current_number", JVal.int n)]
      | none => [])
  ++ (match quota with
      | some n => [("total_quota", JVal.int n)]
      | none => [])
  ++ (if waiting.isEmpty then [] else [("waiting_list", JVal.intList waiting)])
  ++ (if details.isEmpty then [] else [("clinic_queue_details", JVal.itemList details)])

/-- Concrete morning slot used in the time-gate and payload theorems. -/
def slotMorning : DoctorSlot :=
  { doctor_no := "D1", doctor_name := "Doc", department_code := "01",
    session_date := 0, session_type := "上午", total_quota := some 50,
    registered := some 40, clinic_room := some "101" }

/-- C1. The off-peak full-scan write path violates write-only-if-present:
    its payload always contains the key current_number with a null
    value (so an upsert nulls a previously stored current-call number),
    and contains total_quota as null when the slot has no quota - while
    the guarded build_snapshot_row path omits current_number when no
    value is available. -/
theorem offPeakRow_writes_null (d p ts : String) (slot : DoctorSlot)
    (stored : List (String × JVal)) :
    lookupKey (offPeakRow d p ts slot) "current_number" = some JVal.null ∧
    upsertLookup stored (offPeakRow d p ts slot) "current_number" = some JVal.null ∧
    lookupKey (offPeakRow d p ts { slot with total_quota := none })
      "total_quota" = some JVal.null ∧
    lookupKey (buildSnapshotRow slotMorning "d" "p" false 0 480 none "t")
      "current_number" = none ∧
    upsertLookup [("current_number", JVal.int 42)]
      (buildSnapshotRow slotMorning "d" "p" false 0 480 none "t")
      "current_number" = some (JVal.int 42) :=
  ⟨rfl, rfl, rfl, by decide, by decide⟩

/-- C5 counterexample: for a morning session dated today, with progress
    needed and a clinic room present, a live fetch IS attempted at
    exactly 08:00 (minute 480 of the day), because the gate for the
    morning session opens at 08:00, not 08:30. -/
theorem morningGate_counterexample :
    slotMorning.session_type = "上午" ∧ slotMorning.session_date = 0 ∧
    fetchAttempted slotMorning 0 480 true = true :=
  ⟨rfl, rfl, by decide⟩

/-- C5 amended: a live fetch is attempted only when the slot is dated
    today, progress is needed, and the time lies in the eight-hour
    window from the session start; the morning start is 08:00 (not
    08:30), so for a morning slot no fetch happens at 07:59 and a fetch
    is attempted from 08:00 up to (not including) 16:00 whenever the
    slot is today, needed and has a clinic room; never for a slot not
    dated today. -/
theorem liveFetchGate_amended (slot : DoctorSlot) (today now : Int) (needs : Bool) :
    (fetchAttempted slot today now needs = true →
      slot.session_date = today ∧ needs = true ∧
      ∃ st, sessionStartGate slot.session_type = some st ∧
        slot.session_date * 1440 + st ≤ now ∧
        now < slot.session_date * 1440 + st + 480) ∧
    sessionStartGate "上午" = some 480 ∧
    (slot.session_type = "上午" → slot.session_date = today →
      roomNonempty slot.clinic_room = true →
      ∀ m : Int, 480 ≤ m → m < 960 →
        fetchAttempted slot today (today * 1440 + m) true = true) ∧
    (slot.session_type = "上午" →
      fetchAttempted slot today (today * 1440 + 479) needs = false) ∧
    (slot.session_date ≠ today → fetchAttempted slot today now needs = false) := by
  refine ⟨?_, rfl, ?_, ?_, ?_⟩
  · intro h
    unfold fetchAttempted shouldFetchRealtime at h
    simp only [Bool.and_eq_true] at h
    obtain ⟨h1, _⟩ := h
    split at h1
    · rename_i hcond
      simp only [Bool.and_eq_true, beq_iff_eq] at hcond
      obtain ⟨hsd, hneeds⟩ := hcond
      refine ⟨hsd, hneeds, ?_⟩
      cases hst : sessionStartGate slot.session_type with
      | none => rw [hst] at h1; exact absurd h1 (by simp)
      | some st =>
        rw [hst] at h1
        simp only [Bool.and_eq_true, decide_eq_true_eq] at h1
        exact ⟨st, rfl, h1.1, h1.2⟩
    · exact absurd h1 (by simp)
  · intro hty hsd hroom m hm1 hm2
    unfold fetchAttempted shouldFetchRealtime
    rw [hty, hsd, hroom]
    simp [sessionStartGate]
    omega
  · intro hty
    unfold fetchAttempted shouldFetchRealtime
    rw [hty]
    by_cases hc : (slot.session_date == today && needs) = true
    · have hsd : slot.session_date = today := by
        have hc2 := hc
        simp only [Bool.and_eq_true, beq_iff_eq] at hc2
        exact hc2.1
      have hlt : ¬ (slot.session_date * 1440 + 480 ≤ today * 1440 + 479) := by
        rw [hsd]; omega
      simp [hc, sessionStartGate, hlt]
    · simp [hc]
  · intro hne
    unfold fetchAttempted shouldFetchRealtime
    have : (slot.session_date == today) = false := by
      simpa using hne
    simp [this]

/-- Witness for liveFetchGate_amended: the fetch at exactly 08:00. -/
theorem liveFetchGate_amended_witness :
    fetchAttempted slotMorning 0 (0 * 1440 + 480) true = true :=
  (liveFetchGate_amended slotMorning 0 0 true).2.2.1 rfl rfl rfl 480
    (by decide) (by decide)

/-- Session start times of the ETA calculator
    (api/hospitals.py calculate_eta lines 28-32), in minutes of day:
    morning 08:30, afternoon 13:30, evening 18:00. -/
def etaStart (t : String) : Option Int :=
  if t == "上午" then some 510
  else if t == "下午" then some 810
  else if t == "晚上" then some 1080
  else none

/-- Two-digit zero padding of a clock component, as strftime renders
    hours and minutes. -/
def pad2 (n : Int) : String :=
  if n < 10 then "0" ++ toString n else toString n

/-- Clock-time rendering of an absolute minute count, the model of
    strftime with the hour-minute format in calculate_eta line 88. -/
def formatHM (t : Int) : String :=
  pad2 (t % 1440 / 60) ++ ":" ++ pad2 (t % 1440 % 60)

/-- The people-ahead computation of calculate_eta lines 54-75: with a
    (truthy) target, the waiting-list count below target when the
    waiting list is nonempty, else the distance from the current-call
    number, else from ticket one; without a target, registered minus
    waiting count, floored at zero. -/
def peopleAhead (current registered : Option Int) (waiting : List Int)
    (target : Option Int) : Int :=
  match target with
  | some t =>
    if t != 0 then
      if !waiting.isEmpty then
        ((waiting.filter (fun x => decide (x < t))).length : Int)
      else
        match current with
        | some c => max 0 (t - c)
        | none => max 0 (t - 1)
    else
      max 0 (registered.getD 0 - (waiting.length : Int))
  | none =>
    max 0 (registered.getD 0 - (waiting.length : Int))

/-- The ticket-already-passed test of calculate_eta lines 67-70: a
    truthy target, a known current-call number strictly above it, and
    the target absent from the waiting list (or no waiting list). -/
def ticketPassed (current : Option Int) (waiting : List Int)
    (target : Option Int) : Bool :=
  match target, current with
  | some t, some c =>
    (t != 0) && decide (t < c) && (waiting.isEmpty || !(decide (t ∈ waiting)))
  | _, _ => false

/-- Per-patient pacing of calculate_eta line 85: three minutes for
    evening sessions, five otherwise. -/
def paceOf (t : String) : Int := if t == "晚上" then 3 else 5

/-- The ETA calculator of api/hospitals.py calculate_eta, with the
    session date as a day index and the current wall clock split into a
    day index and a minute of day. -/
def calculateEta (session_date : Int) (session_type : String)
    (current registered : Option Int) (waiting : List Int)
    (target : Option Int) (nowDay nowMin : Int) : Option String :=
  match etaStart session_type with
  | none => none
  | some st =>
    if session_date < nowDay then some "已結束"
    else if ticketPassed current waiting target then some "已過號"
    else
      let scheduleStart := session_date * 1440 + st
      let now := nowDay * 1440 + nowMin
      let base := if now < scheduleStart then scheduleStart else now
      some (formatHM
        (base + peopleAhead current registered waiting target * paceOf session_type))

/-- C6. For a session not dated in the past and outside the terminal
    cases, the ETA is the clock rendering of the later of now and the
    session start, plus people-ahead times the pacing (three minutes
    for evening sessions, five otherwise); in particular a morning
    session at 08:30 seen at 09:00 with fourteen people ahead yields
    the clock string 10:10. -/
theorem calculateEta_formula :
    (∀ (sd : Int) (stype : String) (current registered : Option Int)
      (waiting : List Int) (target : Option Int) (nowDay nowMin st : Int),
      etaStart stype = some st →
      ¬ sd < nowDay →
      ticketPassed current waiting target = false →
      calculateEta sd stype current registered waiting target nowDay nowMin =
        some (formatHM (max (nowDay * 1440 + nowMin) (sd * 1440 + st) +
          peopleAhead current registered waiting target * paceOf stype))) ∧
    paceOf "晚上" = 3 ∧ paceOf "上午" = 5 ∧ paceOf "下午" = 5 ∧
    peopleAhead (some 1) none [] (some 15) = 14 ∧
    calculateEta 0 "上午" (some 1) none [] (some 15) 0 540 = some "10:10" := by
  refine ⟨?_, rfl, rfl, rfl, by decide, by decide⟩
  intro sd stype current registered waiting target nowDay nowMin st hst hpast hticket
  unfold calculateEta
  rw [hst]
  dsimp only
  rw [if_neg hpast, hticket]
  have hbase :
      (if nowDay * 1440 + nowMin < sd * 1440 + st then sd * 1440 + st
        else nowDay * 1440 + nowMin) =
      max (nowDay * 1440 + nowMin) (sd * 1440 + st) := by
    rcases lt_or_le (nowDay * 1440 + nowMin) (sd * 1440 + st) with h | h
    · rw [if_pos h, max_eq_right (le_of_lt h)]
    · rw [if_neg (not_lt.mpr h), max_eq_left h]
  simp only [Bool.false_eq_true, if_false, hbase]

/-- Witness for calculateEta_formula at the literal morning scenario. -/
theorem calculateEta_formula_witness :
    calculateEta 0 "上午" (some 1) none [] (some 15) 0 540 =
      some (formatHM (max (0 * 1440 + 540) (0 * 1440 + 510) +
        peopleAhead (some 1) none [] (some 15) * paceOf "上午")) :=
  calculateEta_formula.1 0 "上午" (some 1) none [] (some 15) 0 540 510
    rfl (by decide) (by decide)

/-- C7. Terminal values of the ETA calculator: any session dated before
    today yields the ended marker regardless of the other inputs; and
    for a session not dated in the past, a given nonzero target with a
    known current-call number strictly above it and the target absent
    from the waiting list yields the ticket-already-passed marker. -/
theorem calculateEta_terminal :
    (∀ (sd : Int) (stype : String) (current registered : Option Int)
      (waiting : List Int) (target : Option Int) (nowDay nowMin st : Int),
      etaStart stype = some st → sd < nowDay →
      calculateEta sd stype current registered waiting target nowDay nowMin =
        some "已結束") ∧
    (∀ (sd : Int) (stype : String) (c t : Int) (registered : Option Int)
      (waiting : List Int) (nowDay nowMin st : Int),
      etaStart stype = some st → ¬ sd < nowDay → t ≠ 0 → t < c →
      t ∉ waiting →
      calculateEta sd stype (some c) registered waiting (some t) nowDay nowMin =
        some "已過號") := by
  constructor
  · intro sd stype current registered waiting target nowDay nowMin st hst hpast
    unfold calculateEta
    rw [hst]
    dsimp only
    rw [if_pos hpast]
  · intro sd stype c t registered waiting nowDay nowMin st hst hpast ht0 htc hmem
    have hpassed : ticketPassed (some c) waiting (some t) = true := by
      unfold ticketPassed
      simp only [Bool.and_eq_true, Bool.or_eq_true, bne_iff_ne, ne_eq,
        decide_eq_true_eq, Bool.not_eq_true]
      refine ⟨⟨ht0, htc⟩, Or.inr ?_⟩
      simpa using hmem
    unfold calculateEta
    rw [hst]
    dsimp only
    rw [if_neg hpast, hpassed]
    simp

/-- Witness for calculateEta_terminal at concrete inputs. -/
theorem calculateEta_terminal_witness :
    calculateEta 0 "下午" (some 9) none [] (some 20) 3 0 = some "已結束" ∧
    calculateEta 5 "晚上" (some 9) none [12] (some 7) 5 1200 = some "已過號" :=
  ⟨calculateEta_terminal.1 0 "下午" (some 9) none [] (some 20) 3 0 810
      rfl (by decide),
    calculateEta_terminal.2 5 "晚上" 9 7 none [12] 5 1200 1080
      rfl (by decide) (by decide) (by decide) (by decide)⟩

/-- Attempt to match one parenthesized room token - an opening
    parenthesis, one or more digits, the clinic-room suffix character
    and a closing parenthesis - at the head of the character list,
    returning the captured group (digits plus suffix).  This models the
    room regular expression of cmuh.py line 223 anchored at one start
    position; its greedy digit run never needs backtracking because the
    character after a maximal digit run is not a digit. -/
def matchRoomAt : List Char → Option (List Char)
  | '(' :: rest =>
    let digits := rest.takeWhile Char.isDigit
    if digits.isEmpty then none
    else
      match rest.drop digits.length with
      | '診' :: ')' :: _ => some (digits ++ ['診'])
      | _ => none
  | _ => none

/-- The room extraction of cmuh.py lines 223-224: the regular
    expression search returns the leftmost match, scanning start
    positions left to right. -/
def roomOfBlock : List Char → Option (List Char)
  | [] => none
  | c :: rest =>
    match matchRoomAt (c :: rest) with
    | some m => some m
    | none => roomOfBlock rest

/-- All parenthesized room tokens of a cell block, in order of their
    start positions. -/
def roomMatches : List Char → List (List Char)
  | [] => []
  | c :: rest =>
    match matchRoomAt (c :: rest) with
    | some m => m :: roomMatches rest
    | none => roomMatches rest

/-- The longest parenthesized numeric room token of a block (leftmost
    among ties), as the specification sentence describes the choice. -/
def longestRoom (s : List Char) : Option (List Char) :=
  (roomMatches s).foldl
    (fun acc m =>
      match acc with
      | none => some m
      | some b => if b.length < m.length then some m else some b)
    none

/-- C8 counterexample: a cell block containing the rooms 5 and 230 in
    parentheses.  The code records the first match, room 5, not the
    longest match, room 230. -/
theorem roomChoice_counterexample :
    roomOfBlock ("115/02/23已掛號：58人(5診)(230診)".toList) =
      some ['5', '診'] ∧
    longestRoom ("115/02/23已掛號：58人(5診)(230診)".toList) =
      some ['2', '3', '0', '診'] ∧
    roomOfBlock ("115/02/23已掛號：58人(5診)(230診)".toList) ≠
      longestRoom ("115/02/23已掛號：58人(5診)(230診)".toList) := by
  refine ⟨by decide, by decide, by decide⟩

/-- C8 amended: when a cell block contains several parenthesized
    numeric room tokens, the clinic room recorded for the slot is the
    first (leftmost) match in the block, the head of the list of all
    matches. -/
theorem roomOfBlock_first (s : List Char) :
    roomOfBlock s = (roomMatches s).head? := by
  induction s with
  | nil => rfl
  | cons c rest ih =>
    cases h : matchRoomAt (c :: rest) with
    | some m => simp [roomOfBlock, roomMatches, h]
    | none => simpa [roomOfBlock, roomMatches, h] using ih

/-- Status label tests of the HMMH progress parser
    (hmmh.py lines 310-321). -/
def inProgressRow (r : QueueItem) : Bool := hasSub r.status "看診中"

/-- Not-yet-seen status test of the HMMH progress parser. -/
def unseenRow (r : QueueItem) : Bool := hasSub r.status "未看診"

/-- Waiting-list membership test of the HMMH progress parser: status
    contains the not-yet-seen or the waiting label. -/
def waitingRow (r : QueueItem) : Bool :=
  hasSub r.status "未看診" || hasSub r.status "等候"

/-- The row loop of hmmh.py fetch_clinic_progress lines 291-315 over
    the already parsed (ticket number, status) rows: collects the
    ticket numbers in order, the waiting list in order, and the
    current-call number, where a later in-progress row overwrites an
    earlier one. -/
def parseRows : List QueueItem → List Int × List Int × Option Int
  | [] => ([], [], none)
  | r :: rest =>
    let p := parseRows rest
    (r.number :: p.1,
     if waitingRow r then r.number :: p.2.1 else p.2.1,
     match p.2.2 with
     | some v => some v
     | none => if inProgressRow r then some r.number else none)

/-- The current-call number after the fallback of hmmh.py lines
    317-323: the explicitly in-progress ticket if any, else - when any
    rows were parsed - the last ticket whose status does not contain
    the not-yet-seen label. -/
def currentFromRows (rows : List QueueItem) : Option Int :=
  match (parseRows rows).2.2 with
  | some v => some v
  | none =>
    if (parseRows rows).1.isEmpty then none
    else (rows.reverse.find? (fun r => !unseenRow r)).map (fun r => r.number)

/-- The Python expression max(numbers) if numbers else 0
    (hmmh.py line 325). -/
def maxNumOf : List Int → Int
  | [] => 0
  | n :: rest => rest.foldl max n

/-- Period label mapping of hmmh.py PERIOD_MAP with the original value
    as default. -/
def hmmhPeriod (p : String) : String :=
  if p == "1" then "上午"
  else if p == "2" then "下午"
  else if p == "3" then "晚上"
  else p

/-- Python falsiness of the coarse page status (hmmh.py line 331). -/
def statusFalsy : Option String → Bool
  | some s => s == ""
  | none => true

/-- Assembly of the ClinicProgress record in hmmh.py
    fetch_clinic_progress lines 325-343, over the parsed rows of the
    progress table and the coarse page status. -/
def hmmhProgress (room period : String) (pageStatus : Option String)
    (rows : List QueueItem) : Option ClinicProgress :=
  let cur := currentFromRows rows
  let numbers := (parseRows rows).1
  if cur.isNone && statusFalsy pageStatus && numbers.isEmpty then none
  else
    some
      { clinic_room := room,
        session_type := hmmhPeriod period,
        current_number := cur.getD 0,
        total_quota := some (maxNumOf numbers),
        registered_count := some (numbers.length : Int),
        status := pageStatus,
        waiting_list := (parseRows rows).2.1,
        clinic_queue_details := rows }

lemma parseRows_numbers (rows : List QueueItem) :
    (parseRows rows).1 = rows.map (fun r => r.number) := by
  induction rows with
  | nil => rfl
  | cons r rest ih => simp [parseRows, ih]

lemma parseRows_waiting (rows : List QueueItem) :
    (parseRows rows).2.1 = (rows.filter waitingRow).map (fun r => r.number) := by
  induction rows with
  | nil => rfl
  | cons r rest ih =>
    by_cases h : waitingRow r
    · simp [parseRows, ih, h, List.filter_cons]
    · simp [parseRows, ih, h, List.filter_cons]

lemma parseRows_current_none (rows : List QueueItem)
    (h : rows.filter inProgressRow = []) : (parseRows rows).2.2 = none := by
  induction rows with
  | nil => rfl
  | cons r rest ih =>
    rw [List.filter_cons] at h
    by_cases hr : inProgressRow r
    · simp [hr] at h
    · simp only [hr, if_neg] at h
      simp [parseRows, ih h, hr]

lemma parseRows_current_single (rows : List QueueItem) (r0 : QueueItem)
    (h : rows.filter inProgressRow = [r0]) :
    (parseRows rows).2.2 = some r0.number := by
  induction rows with
  | nil => simp at h
  | cons r rest ih =>
    rw [List.filter_cons] at h
    by_cases hr : inProgressRow r
    · simp only [hr, if_pos] at h
      obtain ⟨rfl, hrest⟩ : r = r0 ∧ rest.filter inProgressRow = [] := by
        constructor
        · exact (List.cons_eq_cons.mp h).1
        · exact (List.cons_eq_cons.mp h).2
      simp [parseRows, parseRows_current_none rest hrest, hr]
    · simp only [hr, if_neg] at h
      simp [parseRows, ih h]

lemma foldl_max_init_le (l : List Int) (a : Int) : a ≤ l.foldl max a := by
  induction l generalizing a with
  | nil => exact le_refl a
  | cons x xs ih =>
    exact le_trans (le_max_left a x) (ih (max a x))

lemma foldl_max_mem_le (l : List Int) : ∀ a x : Int, x ∈ l → x ≤ l.foldl max a := by
  induction l with
  | nil => intro a x hx; cases hx
  | cons y ys ih =>
    intro a x hx
    rcases List.mem_cons.mp hx with rfl | hmem
    · exact le_trans (le_max_right a x) (foldl_max_init_le ys (max a x))
    · exact ih (max a y) x hmem

lemma foldl_max_mem_or (l : List Int) (a : Int) :
    l.foldl max a = a ∨ l.foldl max a ∈ l := by
  induction l generalizing a with
  | nil => exact Or.inl rfl
  | cons x xs ih =>
    rcases ih (max a x) with h | h
    · rcases max_cases a x with ⟨he, _⟩ | ⟨he, _⟩
      · exact Or.inl (by simpa [he] using h)
      · refine Or.inr ?_
        rw [List.foldl_cons, h, he]
        exact List.mem_cons_self x xs
    · exact Or.inr (List.mem_cons_of_mem x h)

lemma maxNumOf_mem (n : Int) (ns : List Int) : maxNumOf (n :: ns) ∈ n :: ns := by
  show List.foldl max n ns ∈ n :: ns
  rcases foldl_max_mem_or ns n with h | h
  · rw [h]; exact List.mem_cons_self n ns
  · exact List.mem_cons_of_mem n h

lemma maxNumOf_ge (n : Int) (ns : List Int) (x : Int) (hx : x ∈ n :: ns) :
    x ≤ maxNumOf (n :: ns) := by
  show x ≤ List.foldl max n ns
  rcases List.mem_cons.mp hx with rfl | h
  · exact foldl_max_init_le ns x
  · exact foldl_max_mem_le ns n x h

/-- C9. For every parsed HMMH progress table, the assembled record has:
    waiting list exactly the tickets whose status contains the
    not-yet-seen or waiting labels; registered headcount the number of
    parsed rows; total quota the maximum ticket number seen; and a
    current-call number equal to the in-progress ticket when exactly
    one row is in progress, or, when no row is in progress, to the last
    ticket whose status does not contain the not-yet-seen label. -/
theorem hmmh_liveQueue_derivation (room period : String)
    (rows : List QueueItem) (cp : ClinicProgress)
    (hne : rows ≠ [])
    (heq : hmmhProgress room period none rows = some cp) :
    cp.waiting_list = (rows.filter waitingRow).map (fun r => r.number) ∧
    cp.registered_count = some (rows.length : Int) ∧
    (∃ q, cp.total_quota = some q ∧ q ∈ rows.map (fun r => r.number) ∧
      ∀ r ∈ rows, r.number ≤ q) ∧
    (∀ r0, rows.filter inProgressRow = [r0] → cp.current_number = r0.number) ∧
    (rows.filter inProgressRow = [] →
      ∀ r1, rows.reverse.find? (fun r => !unseenRow r) = some r1 →
        cp.current_number = r1.number) := by
  have hnum : (parseRows rows).1 = rows.map (fun r => r.number) :=
    parseRows_numbers rows
  have hguard : ((parseRows rows).1).isEmpty = false := by
    rw [hnum]
    cases rows with
    | nil => exact absurd rfl hne
    | cons r rest => rfl
  unfold hmmhProgress at heq
  dsimp only at heq
  rw [hguard] at heq
  simp only [Bool.and_false, Bool.false_eq_true, if_false] at heq
  obtain rfl : _ = cp := Option.some.inj heq
  refine ⟨parseRows_waiting rows, ?_, ?_, ?_, ?_⟩
  · simp [hnum]
  · obtain ⟨r, rest, hrw⟩ := List.exists_cons_of_ne_nil hne
    refine ⟨maxNumOf ((parseRows rows).1), rfl, ?_, ?_⟩
    · rw [hnum, hrw, List.map_cons]
      exact maxNumOf_mem r.number (rest.map (fun x => x.number))
    · intro r2 hr2
      rw [hnum, hrw, List.map_cons]
      refine maxNumOf_ge r.number (rest.map (fun x => x.number)) r2.number ?_
      rw [← List.map_cons, ← hrw]
      exact List.mem_map_of_mem _ hr2
  · intro r0 hfil
    show (currentFromRows rows).getD 0 = r0.number
    unfold currentFromRows
    rw [parseRows_current_single rows r0 hfil]
    rfl
  · intro hfil r1 hfind
    show (currentFromRows rows).getD 0 = r1.number
    unfold currentFromRows
    rw [parseRows_current_none rows hfil]
    simp [hguard, hfind]

/-- Witness for hmmh_liveQueue_derivation on a three-row table. -/
theorem hmmh_liveQueue_witness :
    (({ clinic_room := "07", session_type := "上午", current_number := 2,
        total_quota := some 3, registered_count := some 3, status := none,
        waiting_list := [3],
        clinic_queue_details :=
          [⟨1, "已看診"⟩, ⟨2, "看診中"⟩, ⟨3, "未看診"⟩] } :
        ClinicProgress)).waiting_list =
      (([⟨1, "已看診"⟩, ⟨2, "看診中"⟩, ⟨3, "未看診"⟩] :
        List QueueItem).filter waitingRow).map (fun r => r.number) :=
  (hmmh_liveQueue_derivation "07" "1"
    [⟨1, "已看診"⟩, ⟨2, "看診中"⟩, ⟨3, "未看診"⟩] _ (by decide) (by decide)).1

/-- The HMMH schedule fetch of hmmh.py fetch_schedule lines 210-233: an
    unimplemented stub that ignores the fetched page and returns the
    empty slot list for every department code. -/
def hmmhFetchSchedule (dept_code html : String) : List DoctorSlot := []

/-- C10. For every department code (and whatever page the site
    returns), the HMMH schedule fetch yields no doctor slots, so the
    off-peak full scan derives no snapshot payloads from HMMH
    schedules. -/
theorem hmmhFetchSchedule_empty (dept_code html doctor_id department_id
    scraped_at : String) :
    hmmhFetchSchedule dept_code html = [] ∧
    (hmmhFetchSchedule dept_code html).map
      (offPeakRow doctor_id department_id scraped_at) = [] :=
  ⟨rfl, rfl⟩

end MedTracker
